import Mathlib

/-!
Verification of the fmr workbook-to-CSV conversion scripts.

Shallow embedding of the three converter scripts
(`scripts/convert_excel.py`, `scripts/convert_fmr_xlsx.py`,
`scripts/convert_fmr_2025.py`) and proofs about them.

Conventions of the embedding:
* Python strings are Lean `String`; character-level work uses `List Char`.
* A value that a Python function may raise out of becomes `Except PyExc`.
* `datetime.now()` is modelled by passing the current wall-clock value in
  explicitly, so that two calls at different instants are two different
  arguments.
* Python's recursion limit is modelled by a fuel argument: at fuel zero a
  recursive call raises (RecursionError), which the surrounding handler may
  catch.
* The two module attributes `openpyxl.utils.datetime.from_ISO8601` and
  `openpyxl.descriptors.base.from_ISO8601` are modelled as two mutable slots
  holding either the library's original routine or the tolerant replacement.
-/

namespace Fmr

/-- A parsed datetime value; claims only compare such values for equality, so
an abstract tick counter suffices. -/
abbrev Datetime := Nat

/-- The scalar cell values the scripts can see in a worksheet. -/
inductive Value where
  | vStr (s : String)
  | vInt (n : Int)
  | vBool (b : Bool)
  | vDate (d : Datetime)
deriving DecidableEq

/-- Python `str()` on the cell values of the model.  `str` of a string is the
string itself, `str(True)` is `"True"`, integers print in decimal. -/
def pyStr : Value → String
  | .vStr s => s
  | .vInt n => toString n
  | .vBool true => "True"
  | .vBool false => "False"
  | .vDate d => "datetime(" ++ toString d ++ ")"

/-- A worksheet cell: `none` is an empty/missing cell (Python `None`). -/
abbrev Cell := Option Value

/-- Exceptions the embedded fragments can raise. -/
inductive PyExc where
  | valueError
  | recursionError
deriving DecidableEq

/-! ## Python `str.replace`

Both tolerant scripts repair a timestamp with a chain of three
`str.replace` calls.  `pyReplace pat rep s` is Python's
`s.replace(pat, rep)`: leftmost, non-overlapping, scanning resumes after
each replacement. -/

/-- If `pat` occurs at the very start of the second list, return what
follows it; otherwise `none`. -/
def stripStart : List Char → List Char → Option (List Char)
  | [], l => some l
  | _ :: _, [] => none
  | p :: ps, c :: cs => if p = c then stripStart ps cs else none

/-- One scan of the replacement loop.  The fuel bounds the number of steps;
each step consumes at least one character (the patterns used here are
non-empty), so fuel equal to the input length is always enough. -/
def pyReplaceAux (pat rep : List Char) : Nat → List Char → List Char
  | 0, l => l
  | _ + 1, [] => []
  | fuel + 1, c :: cs =>
    match stripStart pat (c :: cs) with
    | some rest => rep ++ pyReplaceAux pat rep fuel rest
    | none => c :: pyReplaceAux pat rep fuel cs

def pyReplace (pat rep s : List Char) : List Char :=
  pyReplaceAux pat rep s.length s

/-- The textual repair both tolerant scripts apply before parsing:
`.replace("  ", " ").replace("- ", "-0").replace("T ", "T0")`. -/
def repairChars (s : List Char) : List Char :=
  pyReplace "T ".data "T0".data
    (pyReplace "- ".data "-0".data
      (pyReplace "  ".data " ".data s))

/-- String-level repair (`str(formatted_string)` on a string is the string
itself, so the leading `str(...)` of `convert_fmr_xlsx.py` is the identity
here). -/
def repair (s : String) : String :=
  String.mk (repairChars s.data)

/-! ## The tolerant parser `patched_from_ISO8601`

Both tolerant scripts define, with the same body up to the `str()` call:

```
def patched_from_ISO8601(formatted_string):
    try:
        fixed = formatted_string.replace("  ", " ").replace("- ", "-0").replace("T ", "T0")
        from openpyxl.utils.datetime import from_ISO8601 as original
        return original(fixed)
    except Exception:
        from datetime import datetime
        return datetime.now()
```

The inner `from ... import` statement executes each time the function is
called and reads the module attribute
`openpyxl.utils.datetime.from_ISO8601` at that moment.  The attribute is a
mutable slot; `FuncSlot` says which function it currently holds. -/

/-- What a patched module attribute currently holds: the library's original
routine or the scripts' tolerant replacement. -/
inductive FuncSlot where
  | original
  | patched
deriving DecidableEq

/-- One call of `patched_from_ISO8601`.
* `orig` is the library's original `from_ISO8601` (`none` models a raise);
  it is external library code and therefore a parameter of the embedding.
* `slot` is the current content of `openpyxl.utils.datetime.from_ISO8601`,
  which is what the call-time `from ... import` retrieves.
* `now` is the wall-clock value `datetime.now()` would return during this
  call.
* `fuel` is the remaining recursion budget: when the slot holds the patched
  function itself, the call recurses, and at fuel zero the attempted call
  raises (RecursionError) inside the `try` block.
The result is `Except.error` only if the call raises to its caller. -/
def patchedFromISO8601 (orig : String → Option Datetime) (slot : FuncSlot)
    (now : Datetime) : Nat → String → Except PyExc Datetime
  | fuel, s =>
    let fixed := repair s
    let attempt : Except PyExc Datetime :=
      match slot, fuel with
      | .original, _ =>
        match orig fixed with
        | some d => Except.ok d
        | none => Except.error PyExc.valueError
      | .patched, 0 => Except.error PyExc.recursionError
      | .patched, fuel' + 1 => patchedFromISO8601 orig .patched now fuel' fixed
    match attempt with
    | Except.ok d => Except.ok d
    | Except.error _ => Except.ok now

/-- The parser the specification describes: repair the string, then delegate
to the original, pre-patch parsing routine, falling back to the wall clock
if that fails.  (Stated from the spec's words, for comparison with the
embedded `patchedFromISO8601`.) -/
def specTolerantParse (orig : String → Option Datetime) (now : Datetime)
    (s : String) : Datetime :=
  (orig (repair s)).getD now

/-! ## The monkey-patch state machine

`convert_fmr_xlsx.py` saves and patches two module attributes
(`openpyxl.utils.datetime.from_ISO8601` and
`openpyxl.descriptors.base.from_ISO8601`); `convert_fmr_2025.py` saves and
patches only the first.  `LibState` is the pair of slots. -/

structure LibState where
  utilsSlot : FuncSlot
  baseSlot : FuncSlot
deriving DecidableEq

/-- Both attributes before any script runs: the library's own routine. -/
def initLib : LibState := ⟨.original, .original⟩

/-- The `ORIGINAL → PATCHED` transition of `convert_fmr_xlsx.py` (lines
53–54): both module attributes are set to the tolerant function. -/
def patchXlsx (_s : LibState) : LibState :=
  { utilsSlot := .patched, baseSlot := .patched }

/-- The `ORIGINAL → PATCHED` transition of `convert_fmr_2025.py` (line 28):
only `openpyxl.utils.datetime.from_ISO8601` is reassigned; the copy the
library imported into `openpyxl.descriptors.base` is left untouched. -/
def patch2025 (s : LibState) : LibState :=
  { s with utilsSlot := .patched }

/-! ## Row rendering

`convert_fmr_2025.py` line 39 builds string lists itself:
`[str(cell) if cell is not None else '' for cell in row]`.

`convert_fmr_xlsx.py` line 66 hands raw cell objects to the writer:
`["" if cell is None else cell for cell in row]`; Python's `csv.writer`
stringifies each non-string object with `str()` when it writes the field. -/

/-- The list comprehension of `convert_fmr_2025.py` line 39, per cell. -/
def renderCell2025 (c : Cell) : String :=
  match c with
  | none => ""
  | some v => pyStr v

def renderRow2025 (r : List Cell) : List String :=
  r.map renderCell2025

/-- The list comprehension of `convert_fmr_xlsx.py` line 66, per cell: the
value handed to `csv.writer` (still an object, not yet a string). -/
def renderCellXlsx (c : Cell) : Value :=
  match c with
  | none => .vStr ""
  | some v => v

/-- What `csv.writer` turns a handed-over object into before quoting:
`str()` of the object. -/
def writerFieldText (v : Value) : String :=
  pyStr v

/-- The field strings of one CSV record written by `convert_fmr_xlsx.py`. -/
def renderRowXlsx (r : List Cell) : List String :=
  r.map (fun c => writerFieldText (renderCellXlsx c))

/-! ## The `csv` module (dialect `excel`)

The scripts write through Python's `csv.writer` with the default dialect:
delimiter `,`, quote character `"`, doubled-quote escaping, minimal
quoting, record terminator CR LF.  A field is quoted iff it contains the
delimiter, the quote character, or a line-terminator character — except
that a record consisting of a single empty field is written as `""` so it
stays distinguishable from an empty record.  `parseCSVChars` is the
matching `csv.reader`. -/

/-- Characters that force quoting under minimal quoting. -/
def specialChar (c : Char) : Bool :=
  c = ',' || c = '"' || c = '\r' || c = '\n'

def needsQuote (f : List Char) : Bool :=
  f.any specialChar

/-- Double every quote character (the writer's escaping inside a quoted
field). -/
def escQuotes : List Char → List Char
  | [] => []
  | c :: cs => if c = '"' then '"' :: '"' :: escQuotes cs else c :: escQuotes cs

/-- Encode one field; `force` quotes it even when minimal quoting would
not (used for the single-empty-field record). -/
def encodeFieldCSV (force : Bool) (f : List Char) : List Char :=
  if force || needsQuote f then '"' :: (escQuotes f ++ ['"']) else f

/-- Comma-join the encoded fields of a record with two or more fields. -/
def encodeFieldsCSV : List (List Char) → List Char
  | [] => []
  | [f] => encodeFieldCSV false f
  | f :: g :: fs => encodeFieldCSV false f ++ ',' :: encodeFieldsCSV (g :: fs)

/-- Encode one record, terminated by CR LF. -/
def encodeRecordCSV : List (List Char) → List Char
  | [] => ['\r', '\n']
  | [f] => encodeFieldCSV f.isEmpty f ++ ['\r', '\n']
  | f :: g :: fs => encodeFieldCSV false f ++ ',' :: (encodeFieldsCSV (g :: fs) ++ ['\r', '\n'])

/-- Encode a whole CSV file from its records. -/
def encodeCSVChars : List (List (List Char)) → List Char
  | [] => []
  | r :: rs => encodeRecordCSV r ++ encodeCSVChars rs

/-- States of the reader automaton: at the start of a field, inside an
unquoted field, inside a quoted field, just after a quote inside a quoted
field. -/
inductive CsvMode where
  | fieldStart
  | unquoted
  | quoted
  | quoteEnd
deriving DecidableEq

/-- Finish the file at end of input: a pending record is emitted, a
position at the very start of a record emits nothing. -/
def csvFinish (m : CsvMode) (f : List Char) (fs : List (List Char))
    (acc : List (List (List Char))) : List (List (List Char)) :=
  match m with
  | .fieldStart => if fs.isEmpty then acc else acc ++ [fs ++ [[]]]
  | _ => acc ++ [fs ++ [f]]

/-- The reader automaton.  `f` is the field collected so far, `fs` the
fields of the current record, `acc` the finished records. -/
def parseCSVAux (m : CsvMode) (f : List Char) (fs : List (List Char))
    (acc : List (List (List Char))) : List Char → List (List (List Char))
  | [] => csvFinish m f fs acc
  | c :: rest =>
    match m with
    | .quoted =>
      if c = '"' then parseCSVAux .quoteEnd f fs acc rest
      else parseCSVAux .quoted (f ++ [c]) fs acc rest
    | .fieldStart =>
      if c = '"' then parseCSVAux .quoted [] fs acc rest
      else if c = ',' then parseCSVAux .fieldStart [] (fs ++ [[]]) acc rest
      else if c = '\r' then
        match rest with
        | '\n' :: rest2 =>
          parseCSVAux .fieldStart [] []
            (acc ++ [if fs.isEmpty then [] else fs ++ [[]]]) rest2
        | other => parseCSVAux .unquoted (f ++ [c]) fs acc other
      else parseCSVAux .unquoted (f ++ [c]) fs acc rest
    | .unquoted =>
      if c = ',' then parseCSVAux .fieldStart [] (fs ++ [f]) acc rest
      else if c = '\r' then
        match rest with
        | '\n' :: rest2 => parseCSVAux .fieldStart [] [] (acc ++ [fs ++ [f]]) rest2
        | other => parseCSVAux .unquoted (f ++ [c]) fs acc other
      else parseCSVAux .unquoted (f ++ [c]) fs acc rest
    | .quoteEnd =>
      if c = '"' then parseCSVAux .quoted (f ++ ['"']) fs acc rest
      else if c = ',' then parseCSVAux .fieldStart [] (fs ++ [f]) acc rest
      else if c = '\r' then
        match rest with
        | '\n' :: rest2 => parseCSVAux .fieldStart [] [] (acc ++ [fs ++ [f]]) rest2
        | other => parseCSVAux .unquoted (f ++ [c]) fs acc other
      else parseCSVAux .unquoted (f ++ [c]) fs acc rest

/-- Read a CSV file back into its records. -/
def parseCSVChars (s : List Char) : List (List (List Char)) :=
  parseCSVAux .fieldStart [] [] [] s

/-- Encode a list of records given as strings. -/
def encodeRecordsCSV (rs : List (List String)) : List Char :=
  encodeCSVChars (rs.map (fun r => r.map String.data))

/-- Decode a CSV file into records of strings. -/
def decodeRecordsCSV (s : List Char) : List (List String) :=
  (parseCSVChars s).map (fun r => r.map String.mk)

/-! ## The three script runs

Each script is embedded as a function from its inputs and the outcomes of
the external library calls (workbook load, CSV write) to an observable
result: exit code, final slot state, the ordered side effects, and the
records written.  `load_workbook` / `read_excel` and the write are external
code, so their outcomes are oracle parameters (`Except` for a raise). -/

/-- Observable side effects of a run, in order. -/
inductive Effect where
  | printed (s : String)
  | openedRead (path : String)
  | openedWrite (path : String)
deriving DecidableEq

/-- Observable outcome of one script run. -/
structure RunResult where
  exitCode : Nat
  finalLib : LibState
  libDuringLoad : LibState
  effects : List Effect
  output : Option (List (List String))
deriving DecidableEq

def usageXlsx : String :=
  "Usage: python3 scripts/convert_fmr_xlsx.py <input.xlsx> <output.csv>"

def usageExcel : String :=
  "Usage: python3 scripts/convert_excel.py <input.xlsx> <output.csv>"

/-- The `try` block of `convert_fmr_xlsx.py` (lines 56-76): load, then
write each rendered row; the slot state is not touched by the body.
Returns exit code, effects, and the records written. -/
def xlsxBody (inputFile outputFile : String)
    (loadRes : Except String (List (List Cell))) (writeOk : Bool) :
    Nat × List Effect × Option (List (List String)) :=
  match loadRes with
  | .error e =>
    (1, [.printed ("Reading " ++ inputFile ++ " with openpyxl..."),
         .openedRead inputFile,
         .printed ("Error: " ++ e)], none)
  | .ok rows =>
    if writeOk then
      (0, [.printed ("Reading " ++ inputFile ++ " with openpyxl..."),
           .openedRead inputFile,
           .openedWrite outputFile,
           .printed ("Successfully converted to " ++ outputFile)],
       some (rows.map renderRowXlsx))
    else
      (1, [.printed ("Reading " ++ inputFile ++ " with openpyxl..."),
           .openedRead inputFile,
           .openedWrite outputFile,
           .printed "Error: write failed"], none)

/-- `main()` of `convert_fmr_xlsx.py`: argument check, save both module
attributes, patch both, run the body, and restore both in `finally`. -/
def convertFmrXlsxMain (s0 : LibState) (argv : List String)
    (loadRes : Except String (List (List Cell))) (writeOk : Bool) : RunResult :=
  if argv.length ≠ 3 then
    { exitCode := 1, finalLib := s0, libDuringLoad := s0,
      effects := [.printed usageXlsx], output := none }
  else
    let inputFile := argv.getD 1 ""
    let outputFile := argv.getD 2 ""
    let saved1 := s0.utilsSlot
    let saved2 := s0.baseSlot
    let during := patchXlsx s0
    let body := xlsxBody inputFile outputFile loadRes writeOk
    { exitCode := body.1,
      finalLib := { utilsSlot := saved1, baseSlot := saved2 },
      libDuringLoad := during,
      effects := body.2.1,
      output := body.2.2 }

/-- The `try` block of `convert_fmr_2025.py` (lines 30-51): fixed input and
output paths, rows rendered with its own comprehension. -/
def body2025 (loadRes : Except String (List (List Cell))) (writeOk : Bool) :
    Nat × List Effect × Option (List (List String)) :=
  match loadRes with
  | .error e =>
    (1, [.printed "Reading data/FY25_FMRs_revised.xlsx...",
         .openedRead "data/FY25_FMRs_revised.xlsx",
         .printed ("Error: " ++ e)], none)
  | .ok rows =>
    if writeOk then
      (0, [.printed "Reading data/FY25_FMRs_revised.xlsx...",
           .openedRead "data/FY25_FMRs_revised.xlsx",
           .openedWrite "data/fmr-2025.csv",
           .printed "Successfully converted to data/fmr-2025.csv"],
       some (rows.map renderRow2025))
    else
      (1, [.printed "Reading data/FY25_FMRs_revised.xlsx...",
           .openedRead "data/FY25_FMRs_revised.xlsx",
           .openedWrite "data/fmr-2025.csv",
           .printed "Error: write failed"], none)

/-- The module-level run of `convert_fmr_2025.py`: save the one attribute
into `original_from_ISO8601` (initialised to `None` on line 11, assigned on
line 27), patch it, run the body, and in `finally` restore it only if the
saved value is truthy (a function object always is). -/
def convertFmr2025Run (s0 : LibState)
    (loadRes : Except String (List (List Cell))) (writeOk : Bool) : RunResult :=
  let saved : Option FuncSlot := some s0.utilsSlot
  let during := patch2025 s0
  let body := body2025 loadRes writeOk
  let finalLib :=
    match saved with
    | some f => { during with utilsSlot := f }
    | none => during
  { exitCode := body.1, finalLib := finalLib, libDuringLoad := during,
    effects := body.2.1, output := body.2.2 }

/-! ## The pandas variant `convert_excel.py`

The script itself only checks `sys.argv`, calls `pd.read_excel`, and calls
`df.to_csv(output_file, index=False)`.  The two pandas calls are external
library code; they are modelled here from their documented defaults. -/

/-- Modelled from the pandas library's documented defaults (external code
called by `convert_excel.py`): `read_excel` takes the first worksheet row
as the column names and makes duplicate names unique by appending `.1`,
`.2`, ... to later occurrences. -/
def mangleDupesAux : List String → List String → List String
  | _, [] => []
  | seen, n :: ns =>
    let k := seen.count n
    (if k = 0 then n else n ++ "." ++ toString k) :: mangleDupesAux (seen ++ [n]) ns

def mangleDupes (names : List String) : List String :=
  mangleDupesAux [] names

/-- Modelled from the pandas library's documented defaults (external code
called by `convert_excel.py`): `read_excel` splits the worksheet into the
header row (its cells stringified into column names) and the data rows;
`to_csv(..., index=False)` writes the column names as the first CSV record
(`header=True` is the default) followed by the data rows, missing cells as
empty fields. -/
def convertExcelRecords (wb : List (List Cell)) : List (List String) :=
  match wb with
  | [] => []
  | hdr :: rows => mangleDupes (hdr.map renderCell2025) :: rows.map renderRow2025

/-- The top level of `convert_excel.py`: argument check before anything
else, then read, then write. -/
def convertExcelMain (s0 : LibState) (argv : List String)
    (loadRes : Except String (List (List Cell))) (writeOk : Bool) : RunResult :=
  if argv.length ≠ 3 then
    { exitCode := 1, finalLib := s0, libDuringLoad := s0,
      effects := [.printed usageExcel], output := none }
  else
    let inputFile := argv.getD 1 ""
    let outputFile := argv.getD 2 ""
    match loadRes with
    | .error e =>
      { exitCode := 1, finalLib := s0, libDuringLoad := s0,
        effects := [.printed ("Reading " ++ inputFile ++ "..."),
                    .openedRead inputFile,
                    .printed ("Error: " ++ e)], output := none }
    | .ok wb =>
      if writeOk then
        { exitCode := 0, finalLib := s0, libDuringLoad := s0,
          effects := [.printed ("Reading " ++ inputFile ++ "..."),
                      .openedRead inputFile,
                      .openedWrite outputFile,
                      .printed ("Successfully converted to " ++ outputFile)],
          output := some (convertExcelRecords wb) }
      else
        { exitCode := 1, finalLib := s0, libDuringLoad := s0,
          effects := [.printed ("Reading " ++ inputFile ++ "..."),
                      .openedRead inputFile,
                      .openedWrite outputFile,
                      .printed "Error: write failed"], output := none }

/-- A concrete original parser: succeeds exactly on the repaired form of
the docstring's own example timestamp, returning tick 7. -/
def origSample : String → Option Datetime :=
  fun s => if s = "2025-02-18T20:40:31Z" then some 7 else none

/-- The malformed timestamp from the scripts' docstrings. -/
def badTimestamp : String := "2025- 2-18T20:40:31Z"

/-- An original parser that fails on every string: repair followed by
parsing fails for any input. -/
def origNone : String → Option Datetime := fun _ => none

/-- A record as `csv.writer` writes it when handed raw objects
(`convert_fmr_xlsx.py`): each object is stringified with `str()` before
quoting. -/
def writerowObjs (objs : List Value) : List Char :=
  encodeRecordCSV (objs.map (fun v => (writerFieldText v).data))

/-- A record as `csv.writer` writes it when handed strings
(`convert_fmr_2025.py`). -/
def writerowStrs (ss : List String) : List Char :=
  encodeRecordCSV (ss.map String.data)

/-- Lift a grid of plain strings into a worksheet whose cells are all
string cells. -/
def stringWB (wb : List (List String)) : List (List Cell) :=
  wb.map (fun r => r.map (fun s => some (Value.vStr s)))

/-- A worksheet whose first row repeats a column name — the shape on which
the pandas variant renames columns. -/
def wbDupHeader : List (List Cell) :=
  [[some (Value.vStr "x"), some (Value.vStr "x")],
   [some (Value.vStr "1"), some (Value.vStr "2")]]

/-- An all-string worksheet with a repeated name in the first row. -/
def wbDupStrings : List (List String) := [["a", "a"], ["b", "c"]]

/-- A small worksheet with one column: one string cell, one missing
cell. -/
def wbOneCol : List (List Cell) := [[some (Value.vStr "a")], [none]]

/-! ## The tolerant parser under the active patch -/

/-- While the patch is installed, the call-time import inside
`patched_from_ISO8601` retrieves the patched function itself, so the call
recurses until the recursion budget is gone and the handler returns the
wall clock: the result is `now` whatever the input and whatever the
library's original parser would have said. -/
theorem patched_slot_returns_now (orig : String → Option Datetime)
    (now : Datetime) (fuel : Nat) (s : String) :
    patchedFromISO8601 orig .patched now fuel s = Except.ok now := by
  induction fuel generalizing s with
  | zero => rfl
  | succ n ih => simp [patchedFromISO8601, ih]

/-- C1.  The claim says `patched_from_ISO8601` repairs the string and then
delegates to the original, pre-patch ISO-8601 routine.  The code disagrees:
the `from openpyxl.utils.datetime import from_ISO8601 as original`
statement inside the function body runs at call time and reads the module
attribute that the script itself has already replaced, so while the patch
is active (which is whenever the function is actually invoked, during
`load_workbook`) the function calls itself, exhausts the recursion budget,
and the handler returns the wall clock.  On the docstring's own example
`"2025- 2-18T20:40:31Z"`, with a wall clock of 0 and an original parser
that parses the repaired string to 7, the code returns 0 while the
behaviour the claim describes returns 7. -/
theorem c1_delegation_code_bug :
    patchedFromISO8601 origSample .patched 0 1000 badTimestamp = Except.ok 0
    ∧ patchedFromISO8601 origSample .original 0 1000 badTimestamp = Except.ok 7
    ∧ specTolerantParse origSample 0 badTimestamp = 7
    ∧ (0 : Datetime) ≠ 7 :=
  ⟨patched_slot_returns_now origSample 0 1000 badTimestamp,
   by rfl, by decide, by decide⟩

/-- C2.  The tolerant parser is total: whatever the input string, the slot
contents, the wall clock, the recursion budget and the behaviour of the
library's original parser, the call returns a datetime value and never
propagates an exception to its caller. -/
theorem c2_tolerant_parser_total (orig : String → Option Datetime)
    (slot : FuncSlot) (now : Datetime) (fuel : Nat) (s : String) :
    ∃ d : Datetime, patchedFromISO8601 orig slot now fuel s = Except.ok d := by
  cases slot with
  | patched => exact ⟨now, patched_slot_returns_now orig now fuel s⟩
  | original =>
    cases fuel with
    | zero =>
      cases h : orig (repair s) with
      | none => exact ⟨now, by simp [patchedFromISO8601, h]⟩
      | some d => exact ⟨d, by simp [patchedFromISO8601, h]⟩
    | succ n =>
      cases h : orig (repair s) with
      | none => exact ⟨now, by simp [patchedFromISO8601, h]⟩
      | some d => exact ⟨d, by simp [patchedFromISO8601, h]⟩

/-- C9.  The tolerant parser is not deterministic: on an input for which
repair followed by parsing fails, its result is the wall clock at call
time, so two calls made at different instants (wall clock 5 and then 11)
return different datetime values — whether the module slot still holds the
patched function (the state in which the parser actually runs) or the
original one. -/
theorem c9_nondeterministic_fallback :
    patchedFromISO8601 origNone .patched 5 100 "garbage" = Except.ok 5
    ∧ patchedFromISO8601 origNone .patched 11 100 "garbage" = Except.ok 11
    ∧ patchedFromISO8601 origNone .original 5 100 "garbage" = Except.ok 5
    ∧ patchedFromISO8601 origNone .original 11 100 "garbage" = Except.ok 11
    ∧ (5 : Datetime) ≠ 11 :=
  ⟨patched_slot_returns_now origNone 5 100 "garbage",
   patched_slot_returns_now origNone 11 100 "garbage",
   by rfl, by rfl, by decide⟩

/-! ## Patch and restore -/

/-- C3.  For every run of a tolerant variant and every exit path — normal
completion, a raise during workbook load, or a raise during CSV writing,
and for `convert_fmr_xlsx.py` also the usage-error path — the `finally`
block reinstates the saved routine at every location that was patched, so
after the run both module attributes hold exactly what they held before
it. -/
theorem c3_restore_on_every_path (s0 : LibState) (argv : List String)
    (loadRes loadRes2 : Except String (List (List Cell))) (writeOk writeOk2 : Bool) :
    (convertFmrXlsxMain s0 argv loadRes writeOk).finalLib = s0
    ∧ (convertFmr2025Run s0 loadRes2 writeOk2).finalLib = s0 := by
  constructor
  · unfold convertFmrXlsxMain
    by_cases h : argv.length ≠ 3 <;> simp [h]
  · rfl

/-- C4 counterexample.  The patch step of `convert_fmr_2025.py` reassigns
only `openpyxl.utils.datetime.from_ISO8601`; the reference the library
imported into `openpyxl.descriptors.base` at import time still holds the
original routine afterwards, so not every reachable reference is
replaced. -/
theorem c4_counterexample_2025_partial_patch :
    (patch2025 initLib).baseSlot = FuncSlot.original
    ∧ (patch2025 initLib).utilsSlot = FuncSlot.patched
    ∧ FuncSlot.original ≠ FuncSlot.patched := by
  refine ⟨rfl, rfl, by decide⟩

/-- C4 amended.  Before the workbook is opened, `convert_fmr_xlsx.py`
replaces both internal locations holding the parsing routine
(`openpyxl.utils.datetime` and `openpyxl.descriptors.base`) with the
tolerant version, while `convert_fmr_2025.py` replaces only the
`openpyxl.utils.datetime` location and leaves the `descriptors.base` copy
untouched; the patched state is the one in force during the load. -/
theorem c4_amended_patch_sites (s : LibState) (loadRes : Except String (List (List Cell)))
    (writeOk : Bool) (argv : List String) (h3 : argv.length = 3) :
    (patchXlsx s).utilsSlot = FuncSlot.patched
    ∧ (patchXlsx s).baseSlot = FuncSlot.patched
    ∧ (patch2025 s).utilsSlot = FuncSlot.patched
    ∧ (patch2025 s).baseSlot = s.baseSlot
    ∧ (convertFmrXlsxMain s argv loadRes writeOk).libDuringLoad = patchXlsx s
    ∧ (convertFmr2025Run s loadRes writeOk).libDuringLoad = patch2025 s := by
  refine ⟨rfl, rfl, rfl, rfl, ?_, rfl⟩
  unfold convertFmrXlsxMain
  simp [h3]

/-- C4 amended, witness: the amended statement instantiated at the initial
library state and a concrete three-element argument vector. -/
theorem c4_amended_patch_sites_witness :
    (["prog", "in.xlsx", "out.csv"] : List String).length = 3
    ∧ ((patchXlsx initLib).utilsSlot = FuncSlot.patched
      ∧ (patchXlsx initLib).baseSlot = FuncSlot.patched
      ∧ (patch2025 initLib).utilsSlot = FuncSlot.patched
      ∧ (patch2025 initLib).baseSlot = initLib.baseSlot
      ∧ (convertFmrXlsxMain initLib ["prog", "in.xlsx", "out.csv"] (Except.ok []) true).libDuringLoad
          = patchXlsx initLib
      ∧ (convertFmr2025Run initLib (Except.ok []) true).libDuringLoad = patch2025 initLib) :=
  ⟨by decide, c4_amended_patch_sites initLib (Except.ok []) true ["prog", "in.xlsx", "out.csv"] rfl⟩

/-! ## Cell rendering -/

/-- C7.  In both tolerant variants a missing cell (`None`) is rendered as
the empty CSV field — never as the text `"None"` or `"null"` — and a
non-null cell is rendered as its natural string form `str(cell)`, whether
the script stringifies it itself (`convert_fmr_2025.py`) or hands the raw
object to `csv.writer` (`convert_fmr_xlsx.py`). -/
theorem c7_none_renders_empty :
    renderCell2025 none = ""
    ∧ writerFieldText (renderCellXlsx none) = ""
    ∧ ("" : String) ≠ "None"
    ∧ ("" : String) ≠ "null"
    ∧ (∀ v : Value, renderCell2025 (some v) = pyStr v)
    ∧ (∀ v : Value, writerFieldText (renderCellXlsx (some v)) = pyStr v) :=
  ⟨rfl, rfl, by decide, by decide, fun _ => rfl, fun _ => rfl⟩

/-! ## Usage errors -/

/-- C8.  Invoking either argument-taking script with an argument count
other than exactly two positional arguments makes it print the usage
message to standard output and exit with status 1, with no file opened for
reading or writing and nothing written. -/
theorem c8_usage_error_before_io (s0 : LibState) (argv : List String)
    (loadRes loadRes2 : Except String (List (List Cell))) (writeOk writeOk2 : Bool)
    (h : argv.length ≠ 3) :
    (convertExcelMain s0 argv loadRes writeOk).exitCode = 1
    ∧ (convertExcelMain s0 argv loadRes writeOk).effects = [Effect.printed usageExcel]
    ∧ (convertExcelMain s0 argv loadRes writeOk).output = none
    ∧ (convertFmrXlsxMain s0 argv loadRes2 writeOk2).exitCode = 1
    ∧ (convertFmrXlsxMain s0 argv loadRes2 writeOk2).effects = [Effect.printed usageXlsx]
    ∧ (convertFmrXlsxMain s0 argv loadRes2 writeOk2).output = none
    ∧ (∀ e ∈ (convertExcelMain s0 argv loadRes writeOk).effects,
        ∀ p, e ≠ Effect.openedRead p ∧ e ≠ Effect.openedWrite p)
    ∧ (∀ e ∈ (convertFmrXlsxMain s0 argv loadRes2 writeOk2).effects,
        ∀ p, e ≠ Effect.openedRead p ∧ e ≠ Effect.openedWrite p) := by
  unfold convertExcelMain convertFmrXlsxMain
  simp [h]

/-- C8, witness: invoking both scripts with zero arguments (only the
program name in `sys.argv`). -/
theorem c8_usage_error_before_io_witness :
    (["convert.py"] : List String).length ≠ 3
    ∧ ((convertExcelMain initLib ["convert.py"] (Except.ok []) true).exitCode = 1
      ∧ (convertExcelMain initLib ["convert.py"] (Except.ok []) true).effects
          = [Effect.printed usageExcel]
      ∧ (convertExcelMain initLib ["convert.py"] (Except.ok []) true).output = none
      ∧ (convertFmrXlsxMain initLib ["convert.py"] (Except.ok []) true).exitCode = 1
      ∧ (convertFmrXlsxMain initLib ["convert.py"] (Except.ok []) true).effects
          = [Effect.printed usageXlsx]
      ∧ (convertFmrXlsxMain initLib ["convert.py"] (Except.ok []) true).output = none
      ∧ (∀ e ∈ (convertExcelMain initLib ["convert.py"] (Except.ok []) true).effects,
          ∀ p, e ≠ Effect.openedRead p ∧ e ≠ Effect.openedWrite p)
      ∧ (∀ e ∈ (convertFmrXlsxMain initLib ["convert.py"] (Except.ok []) true).effects,
          ∀ p, e ≠ Effect.openedRead p ∧ e ≠ Effect.openedWrite p)) :=
  ⟨by decide,
   c8_usage_error_before_io initLib ["convert.py"] (Except.ok []) (Except.ok []) true true
     (by decide)⟩

/-! ## Equivalence of the two row renderings -/

/-- C10.  For every row of cells, writing
`[str(cell) if cell is not None else '' for cell in row]` and writing
`["" if cell is None else cell for cell in row]` through the standard CSV
writer produce the identical CSV record: the per-field strings agree
(`str()` applied by the script or by the writer), so the quoted record
does too. -/
theorem c10_row_renderings_equivalent (row : List Cell) :
    writerowStrs (renderRow2025 row) = writerowObjs (row.map renderCellXlsx) := by
  unfold writerowStrs writerowObjs renderRow2025
  congr 1
  simp only [List.map_map]
  apply List.map_congr_left
  intro c _
  cases c <;> rfl

/-! ## The CSV reader inverts the CSV writer

Single steps of the reader automaton, then whole runs over an encoded
field, record, and file. -/

theorem parse_step_nil (m : CsvMode) (f : List Char) (fs : List (List Char))
    (acc : List (List (List Char))) :
    parseCSVAux m f fs acc [] = csvFinish m f fs acc := rfl

theorem parse_step_quoted_quote (f : List Char) (fs : List (List Char))
    (acc : List (List (List Char))) (r : List Char) :
    parseCSVAux .quoted f fs acc ('"' :: r) = parseCSVAux .quoteEnd f fs acc r := rfl

theorem parse_step_quoted_data {c : Char} (h : c ≠ '"') (f : List Char)
    (fs : List (List Char)) (acc : List (List (List Char))) (r : List Char) :
    parseCSVAux .quoted f fs acc (c :: r) = parseCSVAux .quoted (f ++ [c]) fs acc r := by
  rw [parseCSVAux.eq_def]
  simp [h]

theorem parse_step_start_quote (f : List Char) (fs : List (List Char))
    (acc : List (List (List Char))) (r : List Char) :
    parseCSVAux .fieldStart f fs acc ('"' :: r) = parseCSVAux .quoted [] fs acc r := by
  rw [parseCSVAux.eq_def]
  rfl

theorem parse_step_start_comma (f : List Char) (fs : List (List Char))
    (acc : List (List (List Char))) (r : List Char) :
    parseCSVAux .fieldStart f fs acc (',' :: r)
      = parseCSVAux .fieldStart [] (fs ++ [[]]) acc r := by
  rw [parseCSVAux.eq_def]
  rfl

theorem parse_step_start_eol (f : List Char) (fs : List (List Char))
    (acc : List (List (List Char))) (r : List Char) :
    parseCSVAux .fieldStart f fs acc ('\r' :: '\n' :: r)
      = parseCSVAux .fieldStart [] []
          (acc ++ [if fs.isEmpty then [] else fs ++ [[]]]) r := by
  rw [parseCSVAux.eq_def]
  rfl

theorem parse_step_start_data {c : Char} (h1 : c ≠ '"') (h2 : c ≠ ',')
    (h3 : c ≠ '\r') (f : List Char) (fs : List (List Char))
    (acc : List (List (List Char))) (r : List Char) :
    parseCSVAux .fieldStart f fs acc (c :: r)
      = parseCSVAux .unquoted (f ++ [c]) fs acc r := by
  rw [parseCSVAux.eq_def]
  simp [h1, h2, h3]

theorem parse_step_unq_comma (f : List Char) (fs : List (List Char))
    (acc : List (List (List Char))) (r : List Char) :
    parseCSVAux .unquoted f fs acc (',' :: r)
      = parseCSVAux .fieldStart [] (fs ++ [f]) acc r := by
  rw [parseCSVAux.eq_def]
  rfl

theorem parse_step_unq_eol (f : List Char) (fs : List (List Char))
    (acc : List (List (List Char))) (r : List Char) :
    parseCSVAux .unquoted f fs acc ('\r' :: '\n' :: r)
      = parseCSVAux .fieldStart [] [] (acc ++ [fs ++ [f]]) r := by
  rw [parseCSVAux.eq_def]
  rfl

theorem parse_step_unq_data {c : Char} (h2 : c ≠ ',') (h3 : c ≠ '\r')
    (f : List Char) (fs : List (List Char)) (acc : List (List (List Char)))
    (r : List Char) :
    parseCSVAux .unquoted f fs acc (c :: r)
      = parseCSVAux .unquoted (f ++ [c]) fs acc r := by
  rw [parseCSVAux.eq_def]
  simp [h2, h3]

theorem parse_step_qe_quote (f : List Char) (fs : List (List Char))
    (acc : List (List (List Char))) (r : List Char) :
    parseCSVAux .quoteEnd f fs acc ('"' :: r)
      = parseCSVAux .quoted (f ++ ['"']) fs acc r := by
  rw [parseCSVAux.eq_def]
  rfl

theorem parse_step_qe_comma (f : List Char) (fs : List (List Char))
    (acc : List (List (List Char))) (r : List Char) :
    parseCSVAux .quoteEnd f fs acc (',' :: r)
      = parseCSVAux .fieldStart [] (fs ++ [f]) acc r := by
  rw [parseCSVAux.eq_def]
  rfl

theorem parse_step_qe_eol (f : List Char) (fs : List (List Char))
    (acc : List (List (List Char))) (r : List Char) :
    parseCSVAux .quoteEnd f fs acc ('\r' :: '\n' :: r)
      = parseCSVAux .fieldStart [] [] (acc ++ [fs ++ [f]]) r := by
  rw [parseCSVAux.eq_def]
  rfl

/-- Inside a quoted field the automaton turns the writer's escaped text
back into the original characters. -/
theorem parse_run_quoted (xs : List Char) (f fs acc r) :
    parseCSVAux .quoted f fs acc (escQuotes xs ++ r)
      = parseCSVAux .quoted (f ++ xs) fs acc r := by
  induction xs generalizing f with
  | nil => simp [escQuotes]
  | cons c cs ih =>
    by_cases hc : c = '"'
    · subst hc
      have he : escQuotes ('"' :: cs) = '"' :: '"' :: escQuotes cs := by
        simp [escQuotes]
      rw [he, List.cons_append, List.cons_append, parse_step_quoted_quote,
        parse_step_qe_quote, ih]
      simp
    · simp only [escQuotes, if_neg hc, List.cons_append]
      rw [parse_step_quoted_data hc, ih]
      simp

/-- An unquoted run of ordinary characters is copied into the field. -/
theorem parse_run_unquoted (xs : List Char) (h : ∀ c ∈ xs, specialChar c = false)
    (f fs acc r) :
    parseCSVAux .unquoted f fs acc (xs ++ r)
      = parseCSVAux .unquoted (f ++ xs) fs acc r := by
  induction xs generalizing f with
  | nil => simp
  | cons c cs ih =>
    have hc := h c (List.mem_cons_self c cs)
    simp only [specialChar, Bool.or_eq_false_iff, decide_eq_false_iff_not] at hc
    rw [List.cons_append, parse_step_unq_data hc.1.1.1 hc.1.2,
      ih (fun x hx => h x (List.mem_cons_of_mem c hx))]
    simp

/-- A field that the writer left unquoted contains no special
characters. -/
theorem needsQuote_false_spec {fld : List Char} (h : needsQuote fld = false) :
    ∀ c ∈ fld, specialChar c = false := by
  intro c hc
  have := List.any_eq_false.mp h
  exact Bool.eq_false_iff.mpr (fun hx => (this c hc) hx)

/-- Consuming one encoded field followed by a comma: the field is
recovered exactly and the automaton is back at a field start. -/
theorem parse_field_comma (force : Bool) (fld : List Char) (fs acc r) :
    parseCSVAux .fieldStart [] fs acc (encodeFieldCSV force fld ++ ',' :: r)
      = parseCSVAux .fieldStart [] (fs ++ [fld]) acc r := by
  by_cases hq : (force || needsQuote fld) = true
  · simp only [encodeFieldCSV, if_pos hq, List.cons_append, List.append_assoc,
      List.singleton_append]
    rw [parse_step_start_quote, parse_run_quoted]
    simp only [List.nil_append]
    rw [parse_step_quoted_quote, parse_step_qe_comma]
  · have hq' : needsQuote fld = false := by
      rcases Bool.or_eq_false_iff.mp (Bool.eq_false_iff.mpr hq) with ⟨_, h2⟩
      exact h2
    simp only [encodeFieldCSV, if_neg hq]
    cases fld with
    | nil => rw [List.nil_append, parse_step_start_comma]
    | cons c cs =>
      have hall := needsQuote_false_spec hq'
      have hc := hall c (List.mem_cons_self c cs)
      simp only [specialChar, Bool.or_eq_false_iff, decide_eq_false_iff_not] at hc
      rw [List.cons_append, parse_step_start_data hc.1.1.2 hc.1.1.1 hc.1.2,
        parse_run_unquoted cs (fun x hx => hall x (List.mem_cons_of_mem c hx)),
        parse_step_unq_comma]
      simp

/-- Consuming one encoded field followed by the record terminator.  The
side condition rules out the one ambiguous shape (an unforced empty field
closing an otherwise empty record), which the writer never produces. -/
theorem parse_field_eol (force : Bool) (fld : List Char) (fs acc r)
    (h : force = true ∨ fld ≠ [] ∨ fs ≠ []) :
    parseCSVAux .fieldStart [] fs acc (encodeFieldCSV force fld ++ '\r' :: '\n' :: r)
      = parseCSVAux .fieldStart [] [] (acc ++ [fs ++ [fld]]) r := by
  by_cases hq : (force || needsQuote fld) = true
  · simp only [encodeFieldCSV, if_pos hq, List.cons_append, List.append_assoc,
      List.singleton_append]
    rw [parse_step_start_quote, parse_run_quoted]
    simp only [List.nil_append]
    rw [parse_step_quoted_quote, parse_step_qe_eol]
  · have hforce : force = false := by
      rcases Bool.or_eq_false_iff.mp (Bool.eq_false_iff.mpr hq) with ⟨h1, _⟩
      exact h1
    have hq' : needsQuote fld = false := by
      rcases Bool.or_eq_false_iff.mp (Bool.eq_false_iff.mpr hq) with ⟨_, h2⟩
      exact h2
    simp only [encodeFieldCSV, if_neg hq]
    cases fld with
    | nil =>
      have hfs : fs ≠ [] := by
        rcases h with h | h | h
        · rw [hforce] at h; exact absurd h (by decide)
        · exact absurd rfl h
        · exact h
      rw [List.nil_append, parse_step_start_eol]
      simp [List.isEmpty_eq_true, hfs]
    | cons c cs =>
      have hall := needsQuote_false_spec hq'
      have hc := hall c (List.mem_cons_self c cs)
      simp only [specialChar, Bool.or_eq_false_iff, decide_eq_false_iff_not] at hc
      rw [List.cons_append, parse_step_start_data hc.1.1.2 hc.1.1.1 hc.1.2,
        parse_run_unquoted cs (fun x hx => hall x (List.mem_cons_of_mem c hx)),
        parse_step_unq_eol]
      simp

/-- Consuming the tail fields of a multi-field record up to and including
the record terminator. -/
theorem parse_fields_tail (flds : List (List Char)) (fs acc r)
    (hflds : flds ≠ []) (hfs : fs ≠ []) :
    parseCSVAux .fieldStart [] fs acc (encodeFieldsCSV flds ++ '\r' :: '\n' :: r)
      = parseCSVAux .fieldStart [] [] (acc ++ [fs ++ flds]) r := by
  induction flds generalizing fs with
  | nil => exact absurd rfl hflds
  | cons g t ih =>
    cases t with
    | nil =>
      simp only [encodeFieldsCSV]
      exact parse_field_eol false g fs acc r (Or.inr (Or.inr hfs))
    | cons g2 t2 =>
      simp only [encodeFieldsCSV, List.append_assoc, List.cons_append]
      rw [parse_field_comma, ih (fs ++ [g]) (by simp) (by simp)]
      simp

/-- Consuming one whole encoded record from a field-start position. -/
theorem parse_record (rec : List (List Char)) (acc r) :
    parseCSVAux .fieldStart [] [] acc (encodeRecordCSV rec ++ r)
      = parseCSVAux .fieldStart [] [] (acc ++ [rec]) r := by
  cases rec with
  | nil =>
    simp only [encodeRecordCSV, List.cons_append]
    rw [parse_step_start_eol]
    simp
  | cons f t =>
    cases t with
    | nil =>
      simp only [encodeRecordCSV, List.append_assoc, List.cons_append, List.nil_append]
      have h : f.isEmpty = true ∨ f ≠ [] ∨ ([] : List (List Char)) ≠ [] := by
        cases f with
        | nil => exact Or.inl rfl
        | cons c cs => exact Or.inr (Or.inl (by simp))
      rw [parse_field_eol f.isEmpty f [] acc r h]
      simp
    | cons g t2 =>
      simp only [encodeRecordCSV, List.append_assoc, List.cons_append, List.nil_append]
      rw [parse_field_comma]
      rw [List.nil_append]
      rw [parse_fields_tail (g :: t2) [f] acc r (by simp) (by simp)]
      simp

/-- Running the automaton over a whole encoded file appends all its
records. -/
theorem parse_encode_aux (rs : List (List (List Char))) (acc) :
    parseCSVAux .fieldStart [] [] acc (encodeCSVChars rs) = acc ++ rs := by
  induction rs generalizing acc with
  | nil => simp [encodeCSVChars, parse_step_nil, csvFinish]
  | cons rec rs ih =>
    simp only [encodeCSVChars]
    rw [parse_record, ih]
    simp

/-- The CSV reader inverts the CSV writer on every list of records. -/
theorem parse_encode_csv (rs : List (List (List Char))) :
    parseCSVChars (encodeCSVChars rs) = rs := by
  unfold parseCSVChars
  rw [parse_encode_aux]
  simp

/-- String-level round trip through the `csv` module model. -/
theorem decode_encode_records (rs : List (List String)) :
    decodeRecordsCSV (encodeRecordsCSV rs) = rs := by
  unfold decodeRecordsCSV encodeRecordsCSV
  rw [parse_encode_csv]
  have hid : String.mk ∘ String.data = id := funext fun _ => rfl
  simp [List.map_map, hid]

/-! ## Record counts, correspondence, and the string round trip -/

/-- C5 counterexample.  On a valid workbook whose first row repeats the
name `x`, the pandas variant `convert_excel.py` emits as its first record
the normalized column names `["x", "x.1"]`: that record corresponds to no
worksheet row (row 1 renders as `["x", "x"]`), so the output is not a
header-less record-for-row mirror of the worksheet. -/
theorem c5_counterexample_pandas_header :
    convertExcelRecords wbDupHeader = [["x", "x.1"], ["1", "2"]]
    ∧ renderRow2025 (wbDupHeader.headD []) = ["x", "x"]
    ∧ (convertExcelMain initLib ["prog", "in.xlsx", "out.csv"]
        (Except.ok wbDupHeader) true).output = some [["x", "x.1"], ["1", "2"]]
    ∧ (["x", "x.1"] : List String) ≠ ["x", "x"] :=
  ⟨by decide, by decide, by decide, by decide⟩

/-- C5 amended.  For the two openpyxl variants the claim holds: on a
workbook of R rows each with C columns, the records written are exactly
the rendered rows — R records, each of C fields, record i corresponding to
worksheet row i, and no header record added.  (The pandas variant instead
prepends a header record of normalized column names, see the
counterexample.) -/
theorem c5_amended_openpyxl_counts (wb : List (List Cell)) (C : Nat)
    (s0 : LibState) (argv : List String) (hargv : argv.length = 3)
    (hC : ∀ r ∈ wb, r.length = C) :
    (convertFmrXlsxMain s0 argv (Except.ok wb) true).output = some (wb.map renderRowXlsx)
    ∧ (convertFmr2025Run s0 (Except.ok wb) true).output = some (wb.map renderRow2025)
    ∧ (wb.map renderRowXlsx).length = wb.length
    ∧ (wb.map renderRow2025).length = wb.length
    ∧ (∀ rec ∈ wb.map renderRowXlsx, rec.length = C)
    ∧ (∀ rec ∈ wb.map renderRow2025, rec.length = C)
    ∧ (∀ i : Nat, (wb.map renderRowXlsx).get? i = (wb.get? i).map renderRowXlsx)
    ∧ (∀ i : Nat, (wb.map renderRow2025).get? i = (wb.get? i).map renderRow2025) := by
  refine ⟨?_, rfl, by simp, by simp, ?_, ?_, ?_, ?_⟩
  · unfold convertFmrXlsxMain
    simp [hargv, xlsxBody]
  · intro rec hrec
    obtain ⟨r, hr, rfl⟩ := List.mem_map.mp hrec
    simpa [renderRowXlsx] using hC r hr
  · intro rec hrec
    obtain ⟨r, hr, rfl⟩ := List.mem_map.mp hrec
    simpa [renderRow2025] using hC r hr
  · intro i
    simp [List.get?_map]
  · intro i
    simp [List.get?_map]

/-- C5 amended, witness: a one-column, two-row worksheet (one string cell,
one missing cell) converted with a three-element argument vector. -/
theorem c5_amended_openpyxl_counts_witness :
    ((["prog", "a.xlsx", "b.csv"] : List String).length = 3
      ∧ (∀ r ∈ wbOneCol, r.length = 1))
    ∧ ((convertFmrXlsxMain initLib ["prog", "a.xlsx", "b.csv"]
          (Except.ok wbOneCol) true).output = some (wbOneCol.map renderRowXlsx)
      ∧ (convertFmr2025Run initLib (Except.ok wbOneCol) true).output
          = some (wbOneCol.map renderRow2025)
      ∧ (wbOneCol.map renderRowXlsx).length = wbOneCol.length
      ∧ (wbOneCol.map renderRow2025).length = wbOneCol.length
      ∧ (∀ rec ∈ wbOneCol.map renderRowXlsx, rec.length = 1)
      ∧ (∀ rec ∈ wbOneCol.map renderRow2025, rec.length = 1)
      ∧ (∀ i : Nat, (wbOneCol.map renderRowXlsx).get? i
          = (wbOneCol.get? i).map renderRowXlsx)
      ∧ (∀ i : Nat, (wbOneCol.map renderRow2025).get? i
          = (wbOneCol.get? i).map renderRow2025)) :=
  ⟨⟨rfl, by decide⟩,
   c5_amended_openpyxl_counts wbOneCol 1 initLib ["prog", "a.xlsx", "b.csv"] rfl
     (by decide)⟩

/-- C6 counterexample.  `convert_excel.py` on an all-string workbook whose
first row repeats the name `a`: converting and re-reading the CSV yields
`[["a", "a.1"], ["b", "c"]]`, not the original strings — pandas renamed the
duplicated column, so conversion followed by CSV parsing is not a round
trip for this variant. -/
theorem c6_counterexample_pandas_roundtrip :
    decodeRecordsCSV (encodeRecordsCSV (convertExcelRecords (stringWB wbDupStrings)))
      = [["a", "a.1"], ["b", "c"]]
    ∧ ([["a", "a.1"], ["b", "c"]] : List (List String)) ≠ wbDupStrings :=
  ⟨by decide, by decide⟩

/-- C6 amended.  For the two openpyxl variants the round trip holds: on a
workbook whose cells are all plain strings, rendering the rows, writing
them through the CSV writer and re-reading the file with the CSV reader
yields exactly the same strings in the same row and column order.  (The
pandas variant can rename duplicate column names, see the
counterexample.) -/
theorem c6_roundtrip_openpyxl (wb : List (List String)) :
    decodeRecordsCSV (encodeRecordsCSV ((stringWB wb).map renderRowXlsx)) = wb
    ∧ decodeRecordsCSV (encodeRecordsCSV ((stringWB wb).map renderRow2025)) = wb := by
  have hrowX : ∀ r : List String,
      renderRowXlsx (r.map (fun s => some (Value.vStr s))) = r := by
    intro r
    induction r with
    | nil => rfl
    | cons s t ih =>
      show writerFieldText (renderCellXlsx (some (Value.vStr s)))
          :: renderRowXlsx (t.map (fun s => some (Value.vStr s))) = s :: t
      rw [ih]
      rfl
  have hrow2 : ∀ r : List String,
      renderRow2025 (r.map (fun s => some (Value.vStr s))) = r := by
    intro r
    induction r with
    | nil => rfl
    | cons s t ih =>
      show renderCell2025 (some (Value.vStr s))
          :: renderRow2025 (t.map (fun s => some (Value.vStr s))) = s :: t
      rw [ih]
      rfl
  have hx : (stringWB wb).map renderRowXlsx = wb := by
    unfold stringWB
    rw [List.map_map,
      show (renderRowXlsx ∘ fun r : List String =>
        r.map (fun s => some (Value.vStr s))) = id from funext (fun r => hrowX r),
      List.map_id]
  have h2 : (stringWB wb).map renderRow2025 = wb := by
    unfold stringWB
    rw [List.map_map,
      show (renderRow2025 ∘ fun r : List String =>
        r.map (fun s => some (Value.vStr s))) = id from funext (fun r => hrow2 r),
      List.map_id]
  rw [hx, h2]
  exact ⟨decode_encode_records wb, decode_encode_records wb⟩

end Fmr
